import Mathlib

/-!
Verification development for the valorantBot repository: a shallow embedding of
the Reauthentication & Storefront Retrieval Engine
(`valorantBot2/services/get_store.py`) and of the Diagnostic Reporter
(`valorantBot2/services/reauth_diag.py`), together with theorems settling the
frozen claims about the natural-language specification.

Conventions of the embedding:
* Python `Optional[str]` values become `Option String`; Python truthiness
  (`if v:`) is modelled by `truthy` / `truthyS`, under which `none` and
  `some ""` are both falsy (the loaders sanitize values so that empty strings
  become `None`, but the embedding keeps the check faithful).
* Network I/O is modelled by oracles: pure functions from the session and the
  request data to a response record.  One oracle per attempt index mirrors the
  fact that the provider may answer each attempt differently.
* Python exceptions become explicit error values (`Except`); the distinct
  exception classes and messages of the source are mirrored by distinct
  constructors.
-/

namespace ValorantBot

/-- Python truthiness of an `Optional[str]`: `None` and `""` are falsy. -/
def truthy (o : Option String) : Bool :=
  match o with
  | none => false
  | some s => !(s == "")

/-- Python truthiness, keeping the value: `truthyS v = some s` iff `v` is a
non-empty string `s`. -/
def truthyS (o : Option String) : Option String :=
  match o with
  | none => none
  | some s => if s == "" then none else some s

/-- Python slicing `v[:n]` on characters. -/
def pyTake (v : String) (n : Nat) : String := String.mk (v.data.take n)

/-- Python `str.lower()` on characters (ASCII range, which covers the UUID
keys this code lowercases). -/
def pyLower (s : String) : String := String.mk (s.data.map Char.toLower)

/-- `needle.isPrefixOf hay || ...` scan: Boolean test that `needle` occurs as a
contiguous substring of `hay` (both as character lists). -/
def containsRun (hay needle : List Char) : Bool :=
  match hay with
  | [] => needle.isEmpty
  | _ :: t => needle.isPrefixOf hay || containsRun t needle

/-- String-level contiguous-substring test (Python `needle in hay`). -/
def strContains (hay needle : String) : Bool :=
  containsRun hay.data needle.data

/-- Left-to-right scan used by `_extract_from_uri`'s regex `key=([^&]+)`:
find the first position where `key` (already including the trailing `=`)
matches and is followed by at least one non-`&` character, and capture the
maximal run of non-`&` characters after it. -/
def findKeyVal (key : List Char) : List Char → Option (List Char)
  | [] => none
  | c :: cs =>
    if key.isPrefixOf (c :: cs) then
      let v := ((c :: cs).drop key.length).takeWhile (fun ch => ch ≠ '&')
      if v.isEmpty then findKeyVal key cs else some v
    else findKeyVal key cs

/-- Embedding of `_extract_from_uri(uri, key)` (get_store.py:112-114):
the regex search for the pattern key=([^&]+), returning the captured group. -/
def extract_from_uri (uri key : String) : Option String :=
  (findKeyVal (key.data ++ ['=']) uri.data).map (fun l => String.mk l)

/-- The two auth-parameter variants (get_store.py:63-71): `AUTH_PARAMS_A`
with scope `account openid`, and `AUTH_PARAMS_B` differing only in the
scope value `openid link`. -/
inductive AuthVariant
  | scopeA
  | scopeB
deriving DecidableEq, Repr

/-- The exact parameter sets `AUTH_PARAMS_A` / `AUTH_PARAMS_B`. -/
def authParams : AuthVariant → List (String × String)
  | .scopeA =>
    [("client_id", "play-valorant-web-prod"), ("nonce", "1"),
     ("redirect_uri", "https://playvalorant.com/opt_in"),
     ("response_type", "token id_token"), ("scope", "account openid"),
     ("prompt", "none")]
  | .scopeB =>
    [("client_id", "play-valorant-web-prod"), ("nonce", "1"),
     ("redirect_uri", "https://playvalorant.com/opt_in"),
     ("response_type", "token id_token"), ("scope", "openid link"),
     ("prompt", "none")]

/-- Response of the legacy-authorization POST, as consumed by the code:
`ok` is `requests`' success flag, `uri` is
`r.json()["response"]["parameters"]["uri"]` when present and parseable
(`none` covers both a missing field and a JSON parse failure, which the
source swallows), `text` is the raw body. -/
structure PostResp where
  ok : Bool
  status : Nat
  uri : Option String
  text : String
deriving DecidableEq, Repr

/-- Response of the `/authorize` GET with redirects disabled. -/
structure GetResp where
  status : Nat
  location : Option String
  text : String
deriving DecidableEq, Repr

/-- Failure value of `_reauth_get_tokens`: the source raises `ReauthExpired`
either with a Cloudflare message (when the recorded debug body carries the
bot-challenge signature) or with a generic tokens-not-found message; `dbg`
is the recorded `last_dbg` body prefix. -/
structure ReauthFail where
  challenge : Bool
  dbg : String
deriving DecidableEq, Repr

/-- Cloudflare bot-challenge signature test (get_store.py:276-278). -/
def isChallengeText (t : String) : Bool :=
  strContains t "Attention Required! | Cloudflare" ||
    strContains t "cf-browser-verification"

/-- HTTP redirect status set checked by the source (get_store.py:268). -/
def redirectCodes : List Nat := [301, 302, 303, 307, 308]

/-- Token extraction from a successful legacy POST (get_store.py:253-263). -/
def postTokens (r : PostResp) : Option (String × String) :=
  if r.ok then
    match r.uri with
    | some uri =>
      match extract_from_uri uri "access_token", extract_from_uri uri "id_token" with
      | some a, some i => some (a, i)
      | _, _ => none
    | none => none
  else none

/-- Token extraction from a redirect response of the `/authorize` GET
(get_store.py:266-274). -/
def getTokens (r : GetResp) : Option (String × String) :=
  if redirectCodes.contains r.status then
    match r.location with
    | some loc =>
      match extract_from_uri loc "access_token", extract_from_uri loc "id_token" with
      | some a, some i => some (a, i)
      | _, _ => none
    | none => none
  else none

/-- Network calls issued by one attempt, used as trace markers and as the
stage tag of `raise_for_status` failures. -/
inductive NetCall
  | postAuth (v : AuthVariant)
  | getAuth (v : AuthVariant)
  | entitlements
  | shard
  | clientVersion
  | userinfo
  | storefrontV2
  | storefrontV3
deriving DecidableEq, Repr

/-- One round of the `for params in (AUTH_PARAMS_A, AUTH_PARAMS_B)` loop body
of `_reauth_get_tokens` (get_store.py:250-274): POST the legacy endpoint,
record `last_dbg = r.text[:500]`, then GET `/authorize` without redirects.
Returns the tokens if found, the recorded debug body, and the calls made. -/
def reauthRound (post : AuthVariant → PostResp) (get : AuthVariant → GetResp)
    (v : AuthVariant) : Option (String × String) × String × List NetCall :=
  let r := post v
  match postTokens r with
  | some tk => (some tk, "", [NetCall.postAuth v])
  | none =>
    let dbg := pyTake r.text 500
    let r2 := get v
    match getTokens r2 with
    | some tk => (some tk, dbg, [NetCall.postAuth v, NetCall.getAuth v])
    | none => (none, dbg, [NetCall.postAuth v, NetCall.getAuth v])

/-- Embedding of `_reauth_get_tokens` (get_store.py:246-282) with its call
trace: run the round for ScopeA then ScopeB, returning the first token pair
found; if none, classify the failure by the Cloudflare signature of the last
recorded POST body. -/
def reauth_get_tokens_t (post : AuthVariant → PostResp)
    (get : AuthVariant → GetResp) :
    Except ReauthFail (String × String) × List NetCall :=
  match reauthRound post get .scopeA with
  | (some tk, _, tr) => (.ok tk, tr)
  | (none, _, trA) =>
    match reauthRound post get .scopeB with
    | (some tk, _, trB) => (.ok tk, trA ++ trB)
    | (none, dbgB, trB) =>
      (.error ⟨isChallengeText dbgB, dbgB⟩, trA ++ trB)

/-- Result component of `_reauth_get_tokens`. -/
def reauth_get_tokens (post : AuthVariant → PostResp)
    (get : AuthVariant → GetResp) : Except ReauthFail (String × String) :=
  (reauth_get_tokens_t post get).1

/-- Normalized credential bundle as produced by `_load_env_from_db` /
`_load_env_from_file` (get_store.py:134-221): every field sanitized to an
optional string. -/
structure Env where
  ssid : Option String
  clid : Option String
  sub : Option String
  csid : Option String
  tdid : Option String
  puuid : Option String
  user_agent : Option String
deriving DecidableEq, Repr

/-- The fixed default user agent `DEFAULT_UA` (get_store.py:74-78). -/
def DEFAULT_UA : String :=
  "Mozilla/5.0 (Windows NT 10.0; Win64; x64) AppleWebKit/537.36 (KHTML, like Gecko) Chrome/120.0.0.0 Safari/537.36"

/-- One cookie of the session jar: name, value and the domain it was set on. -/
structure Cookie where
  name : String
  value : String
  domain : String
deriving DecidableEq, Repr

/-- HTTP session state relevant to the embedding: the effective `User-Agent`
header and the cookie jar. -/
structure Session where
  userAgent : String
  cookies : List Cookie
deriving DecidableEq, Repr

/-- Embedding of `_new_session` (get_store.py:93-108): fresh session whose
`User-Agent` is the supplied value when truthy, the fixed default otherwise,
and whose cookie jar is empty. -/
def new_session (ua : Option String) : Session :=
  { userAgent := match truthyS ua with
      | some u => u
      | none => DEFAULT_UA,
    cookies := [] }

/-- The two cookie domains used throughout the source
(`.riotgames.com` and `auth.riotgames.com`). -/
def cookieDomains : List String := [".riotgames.com", "auth.riotgames.com"]

/-- Embedding of `_set_only_ssid` (get_store.py:224-230): clear the jar; if
the ssid is truthy set it on both domains. -/
def set_only_ssid (s : Session) (ssid : Option String) : Session :=
  { s with cookies :=
      match truthyS ssid with
      | none => []
      | some v => cookieDomains.map (fun d => ⟨"ssid", v, d⟩) }

/-- Helper of `_set_full_cookies`: append cookie `k`=`v` on both domains when
`v` is truthy. -/
def setCookieAll (cs : List Cookie) (k : String) (v : Option String) : List Cookie :=
  match truthyS v with
  | none => cs
  | some x => cs ++ cookieDomains.map (fun d => ⟨k, x, d⟩)

/-- Embedding of `_set_full_cookies` (get_store.py:233-243): clear the jar,
then set ssid followed by clid, sub, csid, tdid (each on both domains, each
only when truthy). -/
def set_full_cookies (s : Session) (env : Env) : Session :=
  let cs1 := setCookieAll [] "ssid" env.ssid
  let cs2 := setCookieAll cs1 "clid" env.clid
  let cs3 := setCookieAll cs2 "sub" env.sub
  let cs4 := setCookieAll cs3 "csid" env.csid
  let cs5 := setCookieAll cs4 "tdid" env.tdid
  { s with cookies := cs5 }

/-- Response of the entitlements POST: status plus the value of
`data.get("entitlements_token") or data.get("token")`. -/
structure EntResp where
  status : Nat
  token : Option String
deriving DecidableEq, Repr

/-- Response of the PAS geo PUT: status plus `data["affinities"]["live"]`
when present. -/
structure PasResp where
  status : Nat
  live : Option String
deriving DecidableEq, Repr

/-- Response of the public version feed: status plus the value of the
`riotClientVersion or riotClientBuild or version or ""` chain. -/
structure VerResp where
  status : Nat
  version : String
deriving DecidableEq, Repr

/-- Response of the userinfo GET: status plus `data.get("sub")`. -/
structure UserResp where
  status : Nat
  sub : Option String
deriving DecidableEq, Repr

/-- Response of a storefront endpoint: status plus the parsed body (kept
abstract as a string). -/
structure StoreResp where
  status : Nat
  body : String
deriving DecidableEq, Repr

/-- All error outcomes one attempt can produce, mirroring the exception the
source raises at each point. -/
inductive AttemptErr
  | missingSsid
  | reauth (f : ReauthFail)
  | httpError (stage : NetCall) (status : Nat)
  | entMissing
  | pas400
  | pasMissing
  | badShard
  | puuidNameError
  | puuidMissing
  | puuidUnavailable
  | store403
deriving DecidableEq, Repr

/-- `requests.Response.raise_for_status` raises exactly for 400–599. -/
def raisesForStatus (s : Nat) : Bool := decide (400 ≤ s ∧ s < 600)

/-- Embedding of `_get_entitlements_token` (get_store.py:285-298):
`raise_for_status`, then the token-or-token fallback, raising when falsy. -/
def get_entitlements_token (r : EntResp) : Except AttemptErr String :=
  if raisesForStatus r.status then .error (.httpError .entitlements r.status)
  else
    match truthyS r.token with
    | none => .error .entMissing
    | some t => .ok t

/-- Embedding of `_get_shard` (get_store.py:301-318): a 400 gets a dedicated
error, then `raise_for_status`, then `affinities.live` must be a non-empty
string. -/
def get_shard (r : PasResp) : Except AttemptErr String :=
  if r.status == 400 then .error .pas400
  else if raisesForStatus r.status then .error (.httpError .shard r.status)
  else
    match r.live with
    | none => .error .pasMissing
    | some sh => if sh == "" then .error .badShard else .ok sh

/-- Embedding of `_get_client_version` (get_store.py:347-351). -/
def get_client_version (r : VerResp) : Except AttemptErr String :=
  if raisesForStatus r.status then .error (.httpError .clientVersion r.status)
  else .ok r.version

/-- Embedding of `_get_puuid` (get_store.py:321-333), faithful to the source
line by line: `raise_for_status`; raise when `sub` is falsy; otherwise the
source executes `return puuuid` (get_store.py:333) — `puuuid` is an
undefined name (the local variable is `puuid`), so Python raises `NameError`
instead of returning the subject value. -/
def get_puuid (r : UserResp) : Except AttemptErr String :=
  if raisesForStatus r.status then .error (.httpError .userinfo r.status)
  else
    match truthyS r.sub with
    | none => .error .puuidMissing
    | some _ => .error .puuidNameError

/-- Embedding of the storefront version negotiation inside `_attempt`
(get_store.py:444-455): fetch v2; on 404 refetch via v3; then a 403 raises
the dedicated storefront error, any other `raise_for_status` status is
fatal, otherwise the body is returned. -/
def storefront_negotiate (v2 v3 : StoreResp) : Except AttemptErr String :=
  let resp := if v2.status == 404 then v3 else v2
  if resp.status == 403 then .error .store403
  else if raisesForStatus resp.status then .error (.httpError .storefrontV2 resp.status)
  else .ok resp.body

/-- Network oracle for one attempt: the provider's responses as pure
functions of the session and request data. -/
structure AttemptOracle where
  post : Session → AuthVariant → PostResp
  get : Session → AuthVariant → GetResp
  entitlements : Session → String → EntResp
  pas : Session → String → String → PasResp
  version : Session → VerResp
  userinfo : Session → String → UserResp
  storeV2 : Session → StoreResp
  storeV3 : Session → StoreResp

/-- One attempt descriptor, mirroring the tuples of the `attempts` list
(get_store.py:458-470). -/
structure AttSpec where
  env : Env
  ua : Option String
  only_ssid : Bool
  label : String
deriving DecidableEq, Repr

/-- The session an attempt runs with: a fresh session for the attempt's
user-agent choice, with the jar populated per its cookie scope
(get_store.py:424-428). -/
def sessionFor (spec : AttSpec) : Session :=
  let s := new_session spec.ua
  if spec.only_ssid then set_only_ssid s spec.env.ssid
  else set_full_cookies s spec.env

/-- The storefront step of `_attempt` (get_store.py:444-455) together with
the calls it makes: v2 always, v3 exactly when v2 returned 404. -/
def storefrontStep (s : Session) (o : AttemptOracle) :
    Except AttemptErr String × List NetCall :=
  let r2 := o.storeV2 s
  if r2.status == 404 then
    (storefront_negotiate r2 (o.storeV3 s), [NetCall.storefrontV2, NetCall.storefrontV3])
  else
    (storefront_negotiate r2 (o.storeV3 s), [NetCall.storefrontV2])

/-- Embedding of the `_attempt` closure (get_store.py:421-455): ssid check,
fresh session, reauth, entitlements, shard, client version, optional puuid
resolution, then the storefront negotiation.  Returns the attempt result and
the list of network calls made, in order.  Every call is issued on the one
session `sessionFor spec` built at the top of the attempt. -/
def runAttemptCalls (spec : AttSpec) (o : AttemptOracle) (autoFetch : Bool) :
    Except AttemptErr String × List NetCall :=
  if truthy spec.env.ssid = false then (.error .missingSsid, [])
  else
    let s := sessionFor spec
    let rr := reauth_get_tokens_t (o.post s) (o.get s)
    match rr.1 with
    | .error f => (.error (.reauth f), rr.2)
    | .ok (access, idTok) =>
      let trace1 := rr.2 ++ [NetCall.entitlements]
      match get_entitlements_token (o.entitlements s access) with
      | .error e => (.error e, trace1)
      | .ok _ent =>
        let trace2 := trace1 ++ [NetCall.shard]
        match get_shard (o.pas s access idTok) with
        | .error e => (.error e, trace2)
        | .ok _shard =>
          let trace3 := trace2 ++ [NetCall.clientVersion]
          match get_client_version (o.version s) with
          | .error e => (.error e, trace3)
          | .ok _ver =>
            match truthyS spec.env.puuid with
            | some _p =>
              let sf := storefrontStep s o
              (sf.1, trace3 ++ sf.2)
            | none =>
              if autoFetch then
                let trace4 := trace3 ++ [NetCall.userinfo]
                match get_puuid (o.userinfo s access) with
                | .error e => (.error e, trace4)
                | .ok _p =>
                  let sf := storefrontStep s o
                  (sf.1, trace4 ++ sf.2)
              else (.error .puuidUnavailable, trace3)

/-- `_attempt` with its trace entries tagged by the session that issued them:
all calls of one attempt run on the attempt's own fresh session. -/
def runAttempt (spec : AttSpec) (o : AttemptOracle) (autoFetch : Bool) :
    Except AttemptErr String × List (Session × NetCall) :=
  let r := runAttemptCalls spec o autoFetch
  (r.1, r.2.map (fun c => (sessionFor spec, c)))

/-- The error the engine surfaces after the loop (get_store.py:482-486):
re-raise a `ReauthExpired` last error as is, wrap any other last error in a
generic `RuntimeError`, or report that no attempt was executed. -/
inductive EngineErr
  | reauthExpired (f : ReauthFail)
  | wrapped (cause : AttemptErr)
  | noAttempts
deriving DecidableEq, Repr

/-- Final classification of `get_storefront` when every attempt failed
(get_store.py:482-486). -/
def classifyFinal (lastErr : Option AttemptErr) : Except EngineErr String :=
  match lastErr with
  | some (.reauth f) => .error (.reauthExpired f)
  | some e => .error (.wrapped e)
  | none => .error .noAttempts

/-- The engine loop over the attempt list (get_store.py:472-486): run each
attempt in order, return the first success, remember the last error.  The
trace records, for every network call, the attempt index and the session the
call was issued on. -/
def runLoop (oracles : Nat → AttemptOracle) (autoFetch : Bool) :
    Nat → List AttSpec → Option AttemptErr →
    Except EngineErr String × List (Nat × Session × NetCall)
  | _, [], lastErr => (classifyFinal lastErr, [])
  | i, spec :: rest, _lastErr =>
    let r := runAttempt spec (oracles i) autoFetch
    let ttr := r.2.map (fun e => (i, e.1, e.2))
    match r.1 with
    | .ok body => (.ok body, ttr)
    | .error e =>
      let rcall := runLoop oracles autoFetch (i + 1) rest (some e)
      (rcall.1, ttr ++ rcall.2)

/-- The attempt list of `get_storefront` (get_store.py:458-470), verbatim:
four DB attempts, then — only when the file bundle loaded — four FILE
attempts; the FILE attempts reuse the DB bundle's stored user agent. -/
def attempts_list (db : Env) (file : Option Env) : List AttSpec :=
  [⟨db, none, true, "DB + defaultUA + SSID"⟩,
   ⟨db, none, false, "DB + defaultUA + FULL"⟩,
   ⟨db, db.user_agent, true, "DB + DBUA + SSID"⟩,
   ⟨db, db.user_agent, false, "DB + DBUA + FULL"⟩] ++
  (match file with
   | some fe =>
     [⟨fe, none, true, "FILE + defaultUA + SSID"⟩,
      ⟨fe, none, false, "FILE + defaultUA + FULL"⟩,
      ⟨fe, db.user_agent, true, "FILE + DBUA + SSID"⟩,
      ⟨fe, db.user_agent, false, "FILE + DBUA + FULL"⟩]
   | none => [])

/-- Embedding of `get_storefront` (get_store.py:400-486) given the two loaded
credential bundles and a per-attempt network oracle.  Returns the result and
the full network-call trace. -/
def get_storefront (db : Env) (file : Option Env) (oracles : Nat → AttemptOracle)
    (autoFetch : Bool) :
    Except EngineErr String × List (Nat × Session × NetCall) :=
  runLoop oracles autoFetch 0 (attempts_list db file) none

/-- Modelled from the spec: the canonical attempt order of §4.2 step 2 —
"for each available source in {primary, legacy}, for each user-agent choice
in {source's own stored agent (if any), fixed default agent}, for each
cookie scope in {Full, SsidOnly}".  `none` stands for the fixed default
agent and the Bool is the SsidOnly flag, so the spec's scope order
{Full, SsidOnly} is `[false, true]`.  This definition exists only to be
compared with the source-derived `attempts_list`. -/
def specCanonicalAttempts (db : Env) (file : Option Env) :
    List (Env × Option String × Bool) :=
  let sources := [db] ++ (match file with | some fe => [fe] | none => [])
  (sources.map (fun src =>
    let uaChoices := match truthyS src.user_agent with
      | some a => [some a, none]
      | none => [none]
    (uaChoices.map (fun ua => [(src, ua, false), (src, ua, true)])).flatten)).flatten

/-- Projection of the source's attempt tuples onto (source bundle, user-agent
choice, SsidOnly flag), for comparison with the spec's canonical order. -/
def attemptsProj (l : List AttSpec) : List (Env × Option String × Bool) :=
  l.map (fun a => (a.env, a.ua, a.only_ssid))

/-- Error taxonomy of the spec's fetchCatalog (§4.4). -/
inductive SpecFetchErr
  | privilegeBlocked
  | upstream (status : Nat)
deriving DecidableEq, Repr

/-- Modelled from the spec: classification step 3 of §4.4 — a 403 is surfaced
distinctly, any other non-success status is a fatal UpstreamError, success
returns the body. -/
def specFetchClassify (r : StoreResp) : Except SpecFetchErr String :=
  if r.status == 403 then .error .privilegeBlocked
  else if 400 ≤ r.status then .error (.upstream r.status)
  else .ok r.body

/-- Modelled from the spec: §4.4 fetchCatalog — attempt the current endpoint
generation; if that returns "not found" (404) or "method not supported"
(405), fall back to the prior generation; otherwise classify.  This
definition exists only to be compared with the source-derived
`storefront_negotiate`. -/
def fetchCatalogSpec (current prior : StoreResp) : Except SpecFetchErr String :=
  if current.status == 404 || current.status == 405 then specFetchClassify prior
  else specFetchClassify current

/-- VP currency UUID constant `VP_ID` (get_store.py:88). -/
def VP_ID : String := "85ad13f7-3d1b-5128-9eb2-7cd8ee0b5741"

/-- Weapon-skin item type UUID constant `ITEMTYPE_WEAPON_SKIN`
(get_store.py:89). -/
def ITEMTYPE_WEAPON_SKIN : String := "e7c63390-eda7-46e0-bb7a-a6abdacd2433"

/-- One entry of an offer's `Rewards` list. -/
structure Reward where
  itemTypeID : Option String
  itemID : Option String
deriving DecidableEq, Repr

/-- One store offer: the two cost maps (absent field modelled as `none`,
each map as an association list keyed by currency UUID) and the rewards. -/
structure Offer where
  discountedCost : Option (List (String × Int))
  cost : Option (List (String × Int))
  rewards : List Reward
deriving DecidableEq, Repr

/-- Python `dict` lookup on an association list. -/
def dictLookup (m : List (String × Int)) (k : String) : Option Int :=
  (m.find? (fun p => p.1 == k)).map (fun p => p.2)

/-- Embedding of `_price_vp` (get_store.py:489-497): for `DiscountedCost`
then `Cost`, take `offer.get(key) or {}` and return the VP entry of the
first map containing the VP key; otherwise `None`. -/
def price_vp (offer : Offer) : Option Int :=
  match dictLookup (offer.discountedCost.getD []) VP_ID with
  | some v => some v
  | none =>
    match dictLookup (offer.cost.getD []) VP_ID with
    | some v => some v
    | none => none

/-- The display data one catalog entry maps to. -/
structure SkinInfo where
  name : String
  icon : Option String
deriving DecidableEq, Repr

/-- Python `dict` assignment (later writes shadow earlier ones). -/
def dset (m : List (String × SkinInfo)) (k : String) (v : SkinInfo) :
    List (String × SkinInfo) :=
  (k, v) :: m

/-- Python `dict.get` on the index. -/
def dget (m : List (String × SkinInfo)) (k : String) : Option SkinInfo :=
  (m.find? (fun p => p.1 == k)).map (fun p => p.2)

/-- One `levels` entry of a catalog skin. -/
structure Level where
  uuid : Option String
  displayIcon : Option String
deriving DecidableEq, Repr

/-- One `chromas` entry of a catalog skin. -/
structure Chroma where
  uuid : Option String
deriving DecidableEq, Repr

/-- One entry of the public catalog-metadata feed. -/
structure Skin where
  uuid : Option String
  displayName : Option String
  displayIcon : Option String
  levels : List Level
  chromas : List Chroma
deriving DecidableEq, Repr

/-- Icon resolution of `_build_skin_info_index` (get_store.py:505-510):
the entry's own `displayIcon`, falling back to the first level's
`displayIcon` when the former is falsy and a level exists. -/
def skinIcon (sk : Skin) : Option String :=
  match truthyS sk.displayIcon with
  | some _ => sk.displayIcon
  | none =>
    match sk.levels with
    | [] => sk.displayIcon
    | lv :: _ => lv.displayIcon

/-- The `{name, icon}` record a registered catalog entry maps to. -/
def skinInfoOf (sk : Skin) : SkinInfo :=
  ⟨(truthyS sk.displayName).getD "", skinIcon sk⟩

/-- The loop body of `_build_skin_info_index` (get_store.py:504-523) for one
catalog entry: skip when name or uuid is falsy, otherwise register the
lower-cased parent uuid, every truthy level uuid and every truthy chroma
uuid, all to the same info record. -/
def addSkin (idx : List (String × SkinInfo)) (sk : Skin) :
    List (String × SkinInfo) :=
  match truthyS sk.displayName, truthyS sk.uuid with
  | some _, some su =>
    let info := skinInfoOf sk
    let idx1 := dset idx (pyLower su) info
    let idx2 := sk.levels.foldl (fun a lv =>
      match (truthyS lv.uuid).map pyLower with
      | some u => dset a u info
      | none => a) idx1
    sk.chromas.foldl (fun a ch =>
      match (truthyS ch.uuid).map pyLower with
      | some u => dset a u info
      | none => a) idx2
  | _, _ => idx

/-- Embedding of `_build_skin_info_index` (get_store.py:500-524) given the
materialized feed. -/
def build_skin_info_index (skins : List Skin) : List (String × SkinInfo) :=
  skins.foldl addSkin []

/-- The lower-cased keys one catalog entry registers in the index. -/
def skinKeys (sk : Skin) : List String :=
  match truthyS sk.displayName, truthyS sk.uuid with
  | some _, some su =>
    (pyLower su) ::
      (sk.levels.filterMap (fun lv => (truthyS lv.uuid).map pyLower) ++
       sk.chromas.filterMap (fun ch => (truthyS ch.uuid).map pyLower))
  | _, _ => []

/-- Caller-facing resolved item (name, VP price or unknown, icon). -/
structure ResolvedItem where
  name : String
  price : Option Int
  icon : Option String
deriving DecidableEq, Repr

/-- First type-matching reward of an offer (get_store.py:536-540): scan
`Rewards` for the first entry whose `ItemTypeID` equals the weapon-skin
constant and take its `ItemID`. -/
def findSkinUuid (offer : Offer) : Option String :=
  match offer.rewards.find? (fun rw => rw.itemTypeID == some ITEMTYPE_WEAPON_SKIN) with
  | some rw => rw.itemID
  | none => none

/-- The offer-resolution loop of `get_store_items` (get_store.py:534-548):
skip offers without a truthy weapon-skin reward id; look the id up in the
index lower-cased; display name and icon from the index entry, the raw id
and no icon when absent; the VP price from `_price_vp`. -/
def resolve_items (offers : List Offer) (idx : List (String × SkinInfo)) :
    List ResolvedItem :=
  match offers with
  | [] => []
  | offer :: rest =>
    match truthyS (findSkinUuid offer) with
    | none => resolve_items rest idx
    | some su =>
      let info := dget idx (pyLower su)
      let name := match info with
        | some i => i.name
        | none => su
      let icon := match info with
        | some i => i.icon
        | none => none
      ⟨name, price_vp offer, icon⟩ :: resolve_items rest idx

/-! Concrete sample inputs used to instantiate the theorems below. -/

/-- A provider oracle whose reauthentication never yields tokens: the legacy
POST fails with the given body, the `/authorize` GET answers 200 (no
redirect); the remaining pipeline endpoints would succeed. -/
def failOracle (txt : String) : AttemptOracle :=
  { post := fun _ _ => ⟨false, 403, none, txt⟩,
    get := fun _ _ => ⟨200, none, ""⟩,
    entitlements := fun _ _ => ⟨200, some "ent-token"⟩,
    pas := fun _ _ _ => ⟨200, some "ap"⟩,
    version := fun _ => ⟨200, "release-08.00"⟩,
    userinfo := fun _ _ => ⟨200, some "puuid-from-sub"⟩,
    storeV2 := fun _ => ⟨200, "storefront-body"⟩,
    storeV3 := fun _ => ⟨200, "storefront-body-v3"⟩ }

/-- A provider oracle whose very first legacy POST yields a redirect URI
carrying both tokens, and whose pipeline endpoints all succeed. -/
def okOracle : AttemptOracle :=
  { post := fun _ _ =>
      ⟨true, 200,
       some "https://playvalorant.com/opt_in#access_token=tokA&id_token=tokB", "ok-body"⟩,
    get := fun _ _ => ⟨200, none, ""⟩,
    entitlements := fun _ _ => ⟨200, some "ent-token"⟩,
    pas := fun _ _ _ => ⟨200, some "ap"⟩,
    version := fun _ => ⟨200, "release-08.00"⟩,
    userinfo := fun _ _ => ⟨200, some "puuid-from-sub"⟩,
    storeV2 := fun _ => ⟨200, "storefront-body"⟩,
    storeV3 := fun _ => ⟨200, "storefront-body-v3"⟩ }

/-- Sample DB bundle: ssid and a pre-known puuid, no stored agent. -/
def exDb : Env :=
  ⟨some "ssid-value", none, none, none, none, some "puuid-value", none⟩

/-- Per-attempt oracle for the C3 counterexample: the first attempt's failure
body carries the Cloudflare bot-challenge signature, every later attempt
fails with a plain body. -/
def exOraclesC3 : Nat → AttemptOracle :=
  fun i => if i == 0 then failOracle "cf-browser-verification" else failOracle "expired"

end ValorantBot

namespace ReauthDiag

/-!
Embedding of the Diagnostic Reporter (`valorantBot2/services/reauth_diag.py`).
Credential bundles there are plain string dicts with `""` defaults; network
outcomes are parameterized as the `(post_code, get_code, ok)` triples that
`_try_once` returns for each attempt index and auth variant.
-/

open ValorantBot (AuthVariant strContains truthy truthyS)

/-- Python `v[:n]` on characters. -/
def pySliceTo (v : String) (n : Nat) : String := String.mk (v.data.take n)

/-- Python `v[-n:]` on characters (for `n ≤ len(v)`). -/
def pySliceLast (v : String) (n : Nat) : String :=
  String.mk (v.data.drop (v.data.length - n))

/-- Embedding of `_mask` (reauth_diag.py:53-55): `"<none>"` for a falsy
value, first-4 + `…` + last-4 when longer than 8 characters, and — the
`else` branch of the source — the value itself otherwise. -/
def mask (v : String) : String :=
  if v == "" then "<none>"
  else if 8 < v.data.length then pySliceTo v 4 ++ "…" ++ pySliceLast v 4
  else v

/-- Credential dict as produced by `_load_db` / `_load_file`
(reauth_diag.py:126-194): plain strings defaulting to `""` (the file loader
has no `user_agent` key; its field stays `""`). -/
structure DEnv where
  ssid : String
  clid : String
  sub : String
  csid : String
  tdid : String
  puuid : String
  user_agent : String
deriving DecidableEq, Repr

/-- The `(post_code, get_code, ok)` triple `_try_once` returns
(reauth_diag.py:73-124); Cloudflare detection is already encoded in the
codes as negative thousand offsets. -/
structure TryRes where
  post : Int
  get : Int
  ok : Bool
deriving DecidableEq, Repr

/-- Decimal digit-string value (used for Python `int(x)`). -/
def digitsVal (l : List Char) : Option Nat :=
  match l with
  | [] => none
  | _ =>
    l.foldl (fun acc c =>
      match acc with
      | none => none
      | some n => if c.isDigit then some (n * 10 + (c.toNat - 48)) else none)
      (some 0)

/-- Python `int(x)` on the status strings `_fmt` handles: optional sign
followed by decimal digits, `None` when unparseable. -/
def pyParseInt (x : String) : Option Int :=
  match x.data with
  | '-' :: ds => (digitsVal ds).map (fun n => -(n : Int))
  | '+' :: ds => (digitsVal ds).map (fun n => (n : Int))
  | ds => (digitsVal ds).map (fun n => (n : Int))

/-- Split on a separator character (Python `s.split("/")` for the one-char
separator `_fmt` uses). -/
def splitCharAux (sep : Char) : List Char → List Char → List (List Char)
  | [], acc => [acc.reverse]
  | c :: cs, acc =>
    if c = sep then acc.reverse :: splitCharAux sep cs []
    else splitCharAux sep cs (c :: acc)

/-- String-level one-character split. -/
def splitChar (sep : Char) (s : String) : List String :=
  (splitCharAux sep s.data []).map (fun l => String.mk l)

/-- The `mark` helper inside `_fmt` (reauth_diag.py:249-268): parse the
part as an integer (silently keeping unparseable parts), keep `-1`, decode
the negative thousand offsets into the original status plus a `CF` flag. -/
def mark (x : String) : String :=
  match pyParseInt x with
  | none => x
  | some v =>
    if v == -1 then "-1"
    else
      let oc : Int × Bool :=
        if v ≤ -100 then
          if 0 ≤ v + 1000 ∧ v + 1000 < 1000 then (v + 1000, true)
          else if 0 ≤ v + 2000 ∧ v + 2000 < 1000 then (v + 2000, true)
          else (v, false)
        else (v, false)
      if oc.1 < 0 then toString oc.1
      else if oc.2 then toString oc.1 ++ " CF" else toString oc.1

/-- Embedding of `_fmt` (reauth_diag.py:246-272): apply `mark` to each
`/`-separated part. -/
def fmt (s : String) : String :=
  if strContains s "/" then String.intercalate "/" ((splitChar '/' s).map mark)
  else mark s

/-- Python format of label with width 24s: right-pad with spaces to width 24. -/
def padRight (s : String) (n : Nat) : String :=
  s ++ String.mk (List.replicate (n - s.data.length) ' ')

/-- Python `str` of a Bool. -/
def pyBool (b : Bool) : String := if b then "True" else "False"

/-- The diagnostic attempt list (reauth_diag.py:205-217): DB bundle with
stored-UA/default-UA × Full/SsidOnly, then the same four for the file
bundle when present (reusing the DB stored agent). -/
def diagAttempts (db : DEnv) (file : Option DEnv) :
    List (String × DEnv × Option String × Bool) :=
  let dbUa : Option String := if db.user_agent == "" then none else some db.user_agent
  [("DB + DBUA     + FULL", db, dbUa, false),
   ("DB + DBUA     + SSID", db, dbUa, true),
   ("DB + defaultUA + FULL", db, none, false),
   ("DB + defaultUA + SSID", db, none, true)] ++
  (match file with
   | some fe =>
     [("FILE + DBUA     + FULL", fe, dbUa, false),
      ("FILE + DBUA     + SSID", fe, dbUa, true),
      ("FILE + defaultUA + FULL", fe, none, false),
      ("FILE + defaultUA + SSID", fe, none, true)]
   | none => [])

/-- One rendered attempt line (reauth_diag.py:232-276): run `_try_once` with
ScopeA, on failure again with ScopeB joining the codes with `/`, then format
the padded label, UA tag, masked ssid, formatted codes and the OK flag. -/
def attemptLine (tries : Nat → AuthVariant → TryRes) (i : Nat)
    (entry : String × DEnv × Option String × Bool) : String :=
  let rA := tries i .scopeA
  let pg : String × String × Bool :=
    if rA.ok then (toString rA.post, toString rA.get, rA.ok)
    else
      let rB := tries i .scopeB
      (toString rA.post ++ "/" ++ toString rB.post,
       toString rA.get ++ "/" ++ toString rB.get, rB.ok)
  padRight entry.1 24 ++ " | UA=" ++ (if entry.2.2.1.isSome then "DB" else "DEF") ++
    " | SSID=" ++ mask entry.2.1.ssid ++ " | POST=" ++ fmt pg.1 ++
    " GET=" ++ fmt pg.2.1 ++ " | OK=" ++ pyBool pg.2.2

/-- Embedding of `collect_reauth_diag` (reauth_diag.py:196-287): the full
rendered report given the loaded bundles, the masked egress string, the
encryption-key warning flag and the per-attempt `_try_once` outcomes. -/
def collect_reauth_diag (uid egress : String) (encWarn : Bool) (db : DEnv)
    (file : Option DEnv) (tries : Nat → AuthVariant → TryRes) : String :=
  let lines0 := ["[diag] discord_user_id=" ++ uid ++ "  egress_ip=" ++ egress]
  let lines1 := if encWarn then
      lines0 ++ ["WARN: COOKIE_ENC_KEY が未設定（再起動で以前のクッキーが復号できない可能性）"]
    else lines0
  let lines2 := lines1 ++ ["DB:  ssid=" ++ mask db.ssid ++ "  ua=" ++ mask db.user_agent]
  let lines3 := match file with
    | some fe => lines2 ++ ["FILE: ssid=" ++ mask fe.ssid]
    | none => lines2
  let att := diagAttempts db file
  let lines4 := lines3 ++ (att.enum.map (fun e => attemptLine tries e.1 e.2))
  let hints :=
    ["", "Hints:",
     " - すべて OK=False かつ POST/GET に \x27CF\x27 表示 → Cloudflare によるブロック（出口IPの変更や専用プロキシの利用を検討）",
     " - すべて OK=False → SSID 失効の可能性（ブラウザで再ログインして新しい ssid を保存）",
     " - SSID-only は OK だが FULL で NG → clid/sub/csid/tdid が古い可能性。DB は ssid 中心で保存を推奨。",
     " - DBUA だけ OK → 保存時の UA を常に使用する運用に。"] ++
    (if encWarn then
      [" - COOKIE_ENC_KEY を固定設定してください（未設定だと再起動ごとに復号不可）。"]
    else [])
  String.intercalate "\n" (lines4 ++ hints)

end ReauthDiag

/-! ## Theorems -/

open ValorantBot

section ReauthClaims

/-- C2: within each attempt, token acquisition tries, in order, the ScopeA
legacy POST, the ScopeA `/authorize` GET (redirects disabled), the ScopeB
POST and the ScopeB GET, returning the first token pair one of these
sub-steps yields; only when all four yield nothing does the attempt fail
(with the challenge classification computed from the last recorded POST
body). -/
theorem claim_C2 (post : AuthVariant → PostResp) (get : AuthVariant → GetResp) :
    reauth_get_tokens post get =
      match [postTokens (post .scopeA), getTokens (get .scopeA),
             postTokens (post .scopeB), getTokens (get .scopeB)].findSome? id with
      | some tk => .ok tk
      | none => .error ⟨isChallengeText (pyTake (post .scopeB).text 500),
                        pyTake (post .scopeB).text 500⟩ := by
  unfold reauth_get_tokens reauth_get_tokens_t reauthRound
  rcases h1 : postTokens (post .scopeA) with _ | tk1 <;>
    rcases h2 : getTokens (get .scopeA) with _ | tk2 <;>
      rcases h3 : postTokens (post .scopeB) with _ | tk3 <;>
        rcases h4 : getTokens (get .scopeB) with _ | tk4 <;>
          simp [List.findSome?, h1, h2, h3, h4]

/-- C4: `_get_puuid` on a userinfo response whose `sub` field is present and
non-empty does not return that value — the source executes `return puuuid`
(get_store.py:333), an undefined name, so the call raises `NameError`; with
`sub` absent it raises the documented missing-subject error. -/
theorem claim_C4 :
    get_puuid ⟨200, some "user-123"⟩ = .error .puuidNameError ∧
    get_puuid ⟨200, none⟩ = .error .puuidMissing := by
  constructor <;> rfl

end ReauthClaims

section StorefrontClaims

/-- C5 counterexample: on a first-call response of 405 ("method not
supported") with a second endpoint answering 200, the spec's fetchCatalog
falls back and succeeds, but the source's negotiation
(get_store.py:444-455) performs no fallback and fails. -/
theorem claim_C5_counterexample :
    storefront_negotiate ⟨405, "first-body"⟩ ⟨200, "fallback-body"⟩ =
        .error (.httpError .storefrontV2 405) ∧
    fetchCatalogSpec ⟨405, "first-body"⟩ ⟨200, "fallback-body"⟩ =
        .ok "fallback-body" := by
  constructor <;> rfl

/-- C5 (amended): the storefront fetch first issues a GET against the v2
endpoint; exactly a 404 triggers the fallback GET against v3 (a 405 does
not); the effective response is classified with 403 surfaced distinctly,
any other 400–599 status fatal, and success returning the body. -/
theorem claim_C5 (v2 v3 : StoreResp) :
    (v2.status = 404 → ∀ v2' : StoreResp, v2'.status = 404 →
        storefront_negotiate v2 v3 = storefront_negotiate v2' v3) ∧
    (v2.status ≠ 404 → ∀ v3' : StoreResp,
        storefront_negotiate v2 v3 = storefront_negotiate v2 v3') ∧
    (v2.status = 404 → v3.status = 403 →
        storefront_negotiate v2 v3 = .error .store403) ∧
    (v2.status = 403 → storefront_negotiate v2 v3 = .error .store403) ∧
    (v2.status = 404 → v3.status ≠ 403 → 400 ≤ v3.status → v3.status < 600 →
        storefront_negotiate v2 v3 = .error (.httpError .storefrontV2 v3.status)) ∧
    (v2.status ≠ 404 → v2.status ≠ 403 → 400 ≤ v2.status → v2.status < 600 →
        storefront_negotiate v2 v3 = .error (.httpError .storefrontV2 v2.status)) ∧
    (v2.status = 404 → v3.status < 400 → storefront_negotiate v2 v3 = .ok v3.body) ∧
    (v2.status ≠ 404 → v2.status < 400 → storefront_negotiate v2 v3 = .ok v2.body) := by
  refine ⟨?_, ?_, ?_, ?_, ?_, ?_, ?_, ?_⟩
  · intro h v2' h'
    simp [storefront_negotiate, h, h']
  · intro h v3'
    have hb : (v2.status == 404) = false := by simpa using h
    simp [storefront_negotiate, hb]
  · intro h h3
    simp [storefront_negotiate, h, h3]
  · intro h
    have h404 : (v2.status == 404) = false := by simp [h]
    simp [storefront_negotiate, h404, h]
  · intro h h3 hge hlt
    have hb : (v3.status == 403) = false := by simpa using h3
    simp [storefront_negotiate, h, hb, raisesForStatus, hge, hlt]
  · intro h h3 hge hlt
    have hb : (v2.status == 404) = false := by simpa using h
    have hc : (v2.status == 403) = false := by simpa using h3
    simp [storefront_negotiate, hb, hc, raisesForStatus, hge, hlt]
  · intro h hlt
    have hc : (v3.status == 403) = false := by simp; omega
    simp [storefront_negotiate, h, hc, raisesForStatus]
    omega
  · intro h hlt
    have hb : (v2.status == 404) = false := by simpa using h
    have hc : (v2.status == 403) = false := by simp; omega
    simp [storefront_negotiate, hb, hc, raisesForStatus]
    omega

/-- C5 witness: a successful v2 response is returned as is, and a 404
triggers the v3 fallback, instantiating `claim_C5` at concrete responses. -/
theorem claim_C5_witness :
    storefront_negotiate ⟨200, "v2-ok"⟩ ⟨500, "v3-body"⟩ = .ok "v2-ok" ∧
    storefront_negotiate ⟨404, "gone"⟩ ⟨200, "v3-body"⟩ = .ok "v3-body" := by
  constructor
  · exact (claim_C5 ⟨200, "v2-ok"⟩ ⟨500, "v3-body"⟩).2.2.2.2.2.2.2 (by decide) (by decide)
  · exact (claim_C5 ⟨404, "gone"⟩ ⟨200, "v3-body"⟩).2.2.2.2.2.2.1 (by decide) (by decide)

end StorefrontClaims

section EngineLemmas

/-- An attempt on a bundle without a truthy ssid fails immediately with the
missing-ssid error and issues no network call. -/
theorem runAttempt_missing (spec : AttSpec) (o : AttemptOracle) (aF : Bool)
    (h : truthy spec.env.ssid = false) :
    runAttempt spec o aF = (.error .missingSsid, []) := by
  simp [runAttempt, runAttemptCalls, h]

/-- When every attempt of the list lacks a truthy ssid, the loop ends with
the missing-ssid error recorded (unless the list is empty) and an empty
network trace. -/
theorem runLoop_missing (oracles : Nat → AttemptOracle) (aF : Bool) :
    ∀ (l : List AttSpec) (i : Nat) (le : Option AttemptErr),
      (∀ spec ∈ l, truthy spec.env.ssid = false) →
      runLoop oracles aF i l le =
        (classifyFinal (if l.isEmpty then le else some .missingSsid), []) := by
  intro l
  induction l with
  | nil => intro i le _; simp [runLoop]
  | cons spec rest ih =>
    intro i le h
    have h0 : truthy spec.env.ssid = false := h spec (by simp)
    have hr : ∀ s ∈ rest, truthy s.env.ssid = false := fun s hs => h s (by simp [hs])
    simp only [runLoop, runAttempt_missing spec (oracles i) aF h0,
      ih (i + 1) (some .missingSsid) hr]
    cases rest <;> simp

end EngineLemmas

section MissingSsidClaim

/-- C6: for credential bundles missing the mandatory ssid (in every
available source), the engine fails fast — the surfaced error is the
engine's terminal failure whose recorded cause is the missing-ssid
`ValueError` — and the network-call trace is empty. -/
theorem claim_C6 (db : Env) (file : Option Env) (oracles : Nat → AttemptOracle)
    (aF : Bool) (hdb : truthy db.ssid = false)
    (hfile : ∀ fe, file = some fe → truthy fe.ssid = false) :
    get_storefront db file oracles aF = (.error (.wrapped .missingSsid), []) := by
  have hall : ∀ spec ∈ attempts_list db file, truthy spec.env.ssid = false := by
    intro spec hs
    cases file with
    | none =>
      simp [attempts_list] at hs
      rcases hs with h | h | h | h <;> simp [h, hdb]
    | some fe =>
      have hfe : truthy fe.ssid = false := hfile fe rfl
      simp [attempts_list] at hs
      rcases hs with h | h | h | h | h | h | h | h <;> simp [h, hdb, hfe]
  have hne : (attempts_list db file).isEmpty = false := by
    cases file <;> simp [attempts_list]
  unfold get_storefront
  rw [runLoop_missing oracles aF (attempts_list db file) 0 none hall, hne]
  rfl

/-- C6 witness: a concrete bundle with no ssid at all fails with the
missing-ssid cause and an empty trace, without touching the provider. -/
theorem claim_C6_witness :
    get_storefront ⟨none, none, none, none, none, none, none⟩ none
        (fun _ => okOracle) true = (.error (.wrapped .missingSsid), []) :=
  claim_C6 ⟨none, none, none, none, none, none, none⟩ none (fun _ => okOracle) true
    (by decide) (by intro fe h; cases h)

end MissingSsidClaim

section OrderingClaim

/-- If the attempts before position `k` all fail and the attempt at `k`
succeeds, the loop returns attempt `k`'s result. -/
theorem runLoop_first_ok (oracles : Nat → AttemptOracle) (aF : Bool) :
    ∀ (l : List AttSpec) (i : Nat) (le : Option AttemptErr) (k : Nat)
      (spec : AttSpec) (b : String),
      l[k]? = some spec →
      (runAttempt spec (oracles (i + k)) aF).1 = .ok b →
      (∀ j spec', j < k → l[j]? = some spec' →
        ∃ e, (runAttempt spec' (oracles (i + j)) aF).1 = .error e) →
      (runLoop oracles aF i l le).1 = .ok b := by
  intro l
  induction l with
  | nil => intro i le k spec b hk; simp at hk
  | cons s0 rest ih =>
    intro i le k spec b hk hok hfail
    cases k with
    | zero =>
      simp at hk
      subst hk
      have hok' : (runAttempt s0 (oracles i) aF).1 = .ok b := by simpa using hok
      simp [runLoop, hok']
    | succ k' =>
      obtain ⟨e, he⟩ := hfail 0 s0 (Nat.succ_pos k') (by simp)
      have he' : (runAttempt s0 (oracles i) aF).1 = .error e := by simpa using he
      have hk' : rest[k']? = some spec := by simpa using hk
      have hok' : (runAttempt spec (oracles (i + 1 + k')) aF).1 = .ok b := by
        rwa [show i + (k' + 1) = i + 1 + k' by omega] at hok
      have hfail' : ∀ j spec', j < k' → rest[j]? = some spec' →
          ∃ e', (runAttempt spec' (oracles (i + 1 + j)) aF).1 = .error e' := by
        intro j spec' hj hjs
        obtain ⟨e', he2⟩ := hfail (j + 1) spec' (by omega) (by simpa using hjs)
        exact ⟨e', by rwa [show i + (j + 1) = i + 1 + j by omega] at he2⟩
      have hrec := ih (i + 1) (some e) k' spec b hk' hok' hfail'
      simp [runLoop, he', hrec]

/-- C1 counterexample: for a primary bundle with a stored agent and no
legacy source, the source's attempt list is not in the spec's canonical
order (the source runs default agent before stored agent and SsidOnly
before Full; the spec prescribes stored agent first and Full first). -/
theorem claim_C1_counterexample :
    attemptsProj (attempts_list ⟨some "s0", none, none, none, none, none, some "AgentX"⟩ none) ≠
      specCanonicalAttempts ⟨some "s0", none, none, none, none, none, some "AgentX"⟩ none := by
  decide

/-- C1 (amended): the attempt list is source-major — for each available
source in {DB, file}, for each user-agent choice in {default agent, DB
bundle's stored agent}, for each cookie scope in {SsidOnly, Full} — giving
exactly 8 attempts when the file source loaded and 4 otherwise (regardless
of whether a stored agent exists; the file attempts reuse the DB bundle's
stored agent); attempts are executed in exactly that order until one
succeeds. -/
theorem claim_C1 :
    (∀ (db : Env) (file : Option Env),
      attemptsProj (attempts_list db file) =
        (([db] ++ (match file with | some fe => [fe] | none => [])).map (fun src =>
          ([(none : Option String), db.user_agent].map (fun ua =>
            [(src, ua, true), (src, ua, false)])).flatten)).flatten) ∧
    (∀ (db : Env) (file : Option Env),
      (attempts_list db file).length = match file with | some _ => 8 | none => 4) ∧
    (∀ (db : Env) (file : Option Env) (oracles : Nat → AttemptOracle) (aF : Bool)
        (k : Nat) (spec : AttSpec) (b : String),
      (attempts_list db file)[k]? = some spec →
      (runAttempt spec (oracles k) aF).1 = .ok b →
      (∀ j spec', j < k → (attempts_list db file)[j]? = some spec' →
        ∃ e, (runAttempt spec' (oracles j) aF).1 = .error e) →
      (get_storefront db file oracles aF).1 = .ok b) := by
  refine ⟨?_, ?_, ?_⟩
  · intro db file
    cases file <;> simp [attempts_list, attemptsProj]
  · intro db file
    cases file <;> simp [attempts_list]
  · intro db file oracles aF k spec b hk hok hfail
    have hok' : (runAttempt spec (oracles (0 + k)) aF).1 = .ok b := by
      simpa using hok
    have hfail' : ∀ j spec', j < k → (attempts_list db file)[j]? = some spec' →
        ∃ e, (runAttempt spec' (oracles (0 + j)) aF).1 = .error e := by
      intro j spec' hj hjs
      simpa using hfail j spec' hj hjs
    exact runLoop_first_ok oracles aF (attempts_list db file) 0 none k spec b
      hk hok' hfail'

/-- C1 witness: with a provider that accepts the very first attempt, the
engine returns that attempt's storefront body. -/
theorem claim_C1_witness :
    (get_storefront exDb none (fun _ => okOracle) true).1 = .ok "storefront-body" := by
  refine claim_C1.2.2 exDb none (fun _ => okOracle) true 0
    ⟨exDb, none, true, "DB + defaultUA + SSID"⟩ "storefront-body" (by decide) (by rfl) ?_
  intro j spec' hj _
  omega

end OrderingClaim

section ClassificationClaim

/-- A reauth failure value always records the ScopeB POST body prefix as its
debug text and classifies the challenge flag from that very text. -/
theorem reauth_error_sig (post : AuthVariant → PostResp) (get : AuthVariant → GetResp)
    (f : ReauthFail) (tr : List NetCall)
    (h : reauth_get_tokens_t post get = (.error f, tr)) :
    f = ⟨isChallengeText (pyTake (post .scopeB).text 500),
         pyTake (post .scopeB).text 500⟩ := by
  unfold reauth_get_tokens_t at h
  rcases hA : reauthRound post get .scopeA with ⟨optA, dbgA, trA⟩
  rw [hA] at h
  cases optA with
  | some tk => simp at h
  | none =>
    rcases hB : reauthRound post get .scopeB with ⟨optB, dbgB, trB⟩
    rw [hB] at h
    cases optB with
    | some tk => simp at h
    | none =>
      have hdbg : dbgB = pyTake (post .scopeB).text 500 := by
        rcases hp : postTokens (post .scopeB) with _ | tk
        · rcases hg : getTokens (get .scopeB) with _ | tk2 <;>
            · simp only [reauthRound, hp, hg] at hB
              have := congrArg (fun x => x.2.1) hB
              simpa using this.symm
        · simp only [reauthRound, hp] at hB
          have := congrArg (fun x => x.1) hB
          simp at this
      simp at h
      rw [← h.1, hdbg]

/-- One failing step of the engine loop: the result is that of the loop's
tail with the error recorded. -/
theorem runLoop_cons_err (oracles : Nat → AttemptOracle) (aF : Bool)
    (i : Nat) (s0 : AttSpec) (rest : List AttSpec) (le : Option AttemptErr)
    (e : AttemptErr) (h : (runAttempt s0 (oracles i) aF).1 = .error e) :
    (runLoop oracles aF i (s0 :: rest) le).1 =
      (runLoop oracles aF (i + 1) rest (some e)).1 := by
  simp only [runLoop, h]

/-- When every attempt of a non-empty list fails, the loop's result is the
classification of the LAST attempt's error. -/
theorem runLoop_all_fail (oracles : Nat → AttemptOracle) (aF : Bool)
    (E : Nat → AttemptErr) :
    ∀ (l : List AttSpec) (i : Nat) (le : Option AttemptErr),
      l ≠ [] →
      (∀ j spec, l[j]? = some spec →
        (runAttempt spec (oracles (i + j)) aF).1 = .error (E (i + j))) →
      (runLoop oracles aF i l le).1 =
        classifyFinal (some (E (i + l.length - 1))) := by
  intro l
  induction l with
  | nil => intro i le hne; exact absurd rfl hne
  | cons s0 rest ih =>
    intro i le _ hall
    have h0 : (runAttempt s0 (oracles i) aF).1 = .error (E i) := by
      simpa using hall 0 s0 (by simp)
    cases rest with
    | nil =>
      simp [runLoop, h0]
    | cons s1 rs =>
      have hall' : ∀ j spec, (s1 :: rs)[j]? = some spec →
          (runAttempt spec (oracles (i + 1 + j)) aF).1 = .error (E (i + 1 + j)) := by
        intro j spec hj
        have := hall (j + 1) spec (by simpa using hj)
        rwa [show i + (j + 1) = i + 1 + j by omega] at this
      have hrec := ih (i + 1) (some (E i)) (by simp) hall'
      rw [runLoop_cons_err oracles aF i s0 (s1 :: rs) le (E i) h0, hrec]
      have : i + 1 + (s1 :: rs).length - 1 = i + (s0 :: s1 :: rs).length - 1 := by
        simp only [List.length_cons]
        omega
      rw [this]

end ClassificationClaim

section ClassificationClaimMain

/-- C3 (amended): when every attempt fails, the engine surfaces the LAST
attempt's failure: if that failure is a reauth failure `f`, the raised error
is the reauth-expired error carrying `f`, whose challenge flag was computed
from the bot-challenge signature of that attempt's final (ScopeB) POST body
— signatures observed by earlier attempts are discarded.  In particular,
when every attempt fails with a challenge-signature body, the last one does
too, and the surfaced error is the challenge-classified one. -/
theorem claim_C3 (db : Env) (file : Option Env) (oracles : Nat → AttemptOracle)
    (aF : Bool) (E : Nat → AttemptErr) (f : ReauthFail)
    (hall : ∀ j spec, (attempts_list db file)[j]? = some spec →
      (runAttempt spec (oracles j) aF).1 = .error (E j))
    (hlast : E ((attempts_list db file).length - 1) = .reauth f) :
    (get_storefront db file oracles aF).1 = .error (.reauthExpired f) ∧
    (∀ (post : AuthVariant → PostResp) (get : AuthVariant → GetResp)
        (f' : ReauthFail) (tr : List NetCall),
      reauth_get_tokens_t post get = (.error f', tr) →
      f'.challenge = isChallengeText f'.dbg ∧
      f'.dbg = pyTake (post .scopeB).text 500) := by
  constructor
  · have hne : attempts_list db file ≠ [] := by
      cases file <;> simp [attempts_list]
    have hall' : ∀ j spec, (attempts_list db file)[j]? = some spec →
        (runAttempt spec (oracles (0 + j)) aF).1 = .error (E (0 + j)) := by
      intro j spec hj
      simpa using hall j spec hj
    have h := runLoop_all_fail oracles aF E (attempts_list db file) 0 none hne hall'
    rw [Nat.zero_add] at h
    unfold get_storefront
    rw [h, hlast]
    rfl
  · intro post get f' tr h
    have hsig := reauth_error_sig post get f' tr h
    subst hsig
    exact ⟨rfl, rfl⟩

set_option maxRecDepth 8192 in
/-- C3 counterexample: with the FIRST attempt's failure carrying the
bot-challenge signature and the later attempts failing plainly, the engine
surfaces the plain (non-challenge) error — refuting "ChallengeBlocked if ANY
attempt's failure carried a bot-challenge signature". -/
theorem claim_C3_counterexample :
    (get_storefront exDb none exOraclesC3 true).1 =
        .error (.reauthExpired ⟨false, "expired"⟩) ∧
    (runAttempt ⟨exDb, none, true, "DB + defaultUA + SSID"⟩ (exOraclesC3 0) true).1 =
        .error (.reauth ⟨true, "cf-browser-verification"⟩) := by
  constructor <;> rfl

set_option maxRecDepth 8192 in
/-- C3 witness: when all four attempts fail with the same challenge-marked
body, the engine surfaces the challenge-classified error. -/
theorem claim_C3_witness :
    (get_storefront exDb none (fun _ => failOracle "cf-browser-verification") true).1 =
      .error (.reauthExpired ⟨true, "cf-browser-verification"⟩) := by
  refine (claim_C3 exDb none (fun _ => failOracle "cf-browser-verification") true
    (fun _ => .reauth ⟨true, "cf-browser-verification"⟩)
    ⟨true, "cf-browser-verification"⟩ ?_ rfl).1
  intro j spec hj
  have hlen : j < 4 := by
    by_contra hge
    have hnone : (attempts_list exDb none)[j]? = none := by
      apply List.getElem?_eq_none
      simp [attempts_list]
      omega
    rw [hnone] at hj
    cases hj
  interval_cases j <;>
    · simp [attempts_list] at hj
      rw [← hj]
      rfl

end ClassificationClaimMain

section SessionClaim

/-- Every entry of an attempt's tagged trace carries the attempt's own fresh
session. -/
theorem runAttempt_trace_session (spec : AttSpec) (o : AttemptOracle) (aF : Bool)
    (x : Session × NetCall) (hx : x ∈ (runAttempt spec o aF).2) :
    x.1 = sessionFor spec := by
  simp only [runAttempt, List.mem_map] at hx
  obtain ⟨c, _, rfl⟩ := hx
  rfl

/-- Every network call recorded by the engine loop belongs to some attempt
of the list and was issued on that attempt's own fresh session. -/
theorem runLoop_trace (oracles : Nat → AttemptOracle) (aF : Bool) :
    ∀ (l : List AttSpec) (i : Nat) (le : Option AttemptErr)
      (x : Nat × Session × NetCall),
      x ∈ (runLoop oracles aF i l le).2 →
      ∃ j spec, l[j]? = some spec ∧ x.1 = i + j ∧ x.2.1 = sessionFor spec := by
  intro l
  induction l with
  | nil => intro i le x hx; simp [runLoop] at hx
  | cons s0 rest ih =>
    intro i le x hx
    have hleft : x ∈ (runAttempt s0 (oracles i) aF).2.map (fun e => (i, e.1, e.2)) →
        ∃ j spec, (s0 :: rest)[j]? = some spec ∧ x.1 = i + j ∧ x.2.1 = sessionFor spec := by
      intro hmem
      rw [List.mem_map] at hmem
      obtain ⟨e, he, rfl⟩ := hmem
      exact ⟨0, s0, by simp, by simp,
        runAttempt_trace_session s0 (oracles i) aF e he⟩
    rcases hres : (runAttempt s0 (oracles i) aF).1 with e | body
    · simp only [runLoop, hres] at hx
      rcases List.mem_append.mp hx with h1 | h2
      · exact hleft h1
      · obtain ⟨j, spec, hj, hx1, hx2⟩ := ih (i + 1) (some e) x h2
        exact ⟨j + 1, spec, by simpa using hj, by omega, hx2⟩
    · simp only [runLoop, hres] at hx
      exact hleft hx

/-- C10: (1) every network call of an engine run is issued on the session
freshly built for the attempt it belongs to — no session is shared across
attempts; (2)/(3) populating the jar clears it first, so the resulting jar
never depends on the session's previous cookie state; (4) the SsidOnly
scope yields exactly the ssid cookie on the wildcard domain and on the auth
subdomain; (5) the Full scope also carries the ssid cookie on both
domains. -/
theorem claim_C10 (db : Env) (file : Option Env) (oracles : Nat → AttemptOracle)
    (aF : Bool) :
    (∀ x ∈ (get_storefront db file oracles aF).2,
      ∃ spec, (attempts_list db file)[x.1]? = some spec ∧
        x.2.1 = sessionFor spec) ∧
    (∀ (s₁ s₂ : Session) (v : Option String),
      (set_only_ssid s₁ v).cookies = (set_only_ssid s₂ v).cookies) ∧
    (∀ (s₁ s₂ : Session) (env : Env),
      (set_full_cookies s₁ env).cookies = (set_full_cookies s₂ env).cookies) ∧
    (∀ (s : Session) (ssidOpt : Option String) (v : String),
      truthyS ssidOpt = some v →
      (set_only_ssid s ssidOpt).cookies =
        [⟨"ssid", v, ".riotgames.com"⟩, ⟨"ssid", v, "auth.riotgames.com"⟩]) ∧
    (∀ (s : Session) (env : Env) (v : String),
      truthyS env.ssid = some v →
      (⟨"ssid", v, ".riotgames.com"⟩ : Cookie) ∈ (set_full_cookies s env).cookies ∧
      (⟨"ssid", v, "auth.riotgames.com"⟩ : Cookie) ∈ (set_full_cookies s env).cookies) := by
  refine ⟨?_, ?_, ?_, ?_, ?_⟩
  · intro x hx
    obtain ⟨j, spec, hj, hx1, hx2⟩ :=
      runLoop_trace oracles aF (attempts_list db file) 0 none x hx
    refine ⟨spec, ?_, hx2⟩
    rw [hx1]
    simpa using hj
  · intro s₁ s₂ v
    rfl
  · intro s₁ s₂ env
    rfl
  · intro s ssidOpt v h
    simp [set_only_ssid, h, cookieDomains]
  · intro s env v h
    have hmem : ∀ cs k w, (⟨"ssid", v, ".riotgames.com"⟩ : Cookie) ∈ cs →
        (⟨"ssid", v, ".riotgames.com"⟩ : Cookie) ∈ setCookieAll cs k w := by
      intro cs k w hm
      unfold setCookieAll
      cases truthyS w <;> simp [hm]
    have hmem2 : ∀ cs k w, (⟨"ssid", v, "auth.riotgames.com"⟩ : Cookie) ∈ cs →
        (⟨"ssid", v, "auth.riotgames.com"⟩ : Cookie) ∈ setCookieAll cs k w := by
      intro cs k w hm
      unfold setCookieAll
      cases truthyS w <;> simp [hm]
    have hbase : (⟨"ssid", v, ".riotgames.com"⟩ : Cookie) ∈
        setCookieAll [] "ssid" env.ssid ∧
        (⟨"ssid", v, "auth.riotgames.com"⟩ : Cookie) ∈
        setCookieAll [] "ssid" env.ssid := by
      unfold setCookieAll
      rw [h]
      simp [cookieDomains]
    exact ⟨hmem _ _ _ (hmem _ _ _ (hmem _ _ _ (hmem _ _ _ hbase.1))),
           hmem2 _ _ _ (hmem2 _ _ _ (hmem2 _ _ _ (hmem2 _ _ _ hbase.2)))⟩

/-- C10 witness: the SsidOnly jar-population lemma instantiated at a
concrete session and ssid. -/
theorem claim_C10_witness :
    (set_only_ssid (new_session (some "custom-agent")) (some "ssid-value")).cookies =
      [⟨"ssid", "ssid-value", ".riotgames.com"⟩,
       ⟨"ssid", "ssid-value", "auth.riotgames.com"⟩] :=
  (claim_C10 exDb none (fun _ => okOracle) true).2.2.2.1
    (new_session (some "custom-agent")) (some "ssid-value") "ssid-value" (by decide)

end SessionClaim

section PriceClaim

/-- C7: price resolution prefers the `DiscountedCost` map — its VP entry
wins whenever present; otherwise the price is exactly the `Cost` map's VP
entry (so `none`, not an error, when neither map has a VP key); and an
offer with a truthy weapon-skin reward is always included in the resolved
output with its name and icon, whatever the price resolved to. -/
theorem claim_C7 (offer : Offer) (idx : List (String × SkinInfo)) :
    (∀ d, dictLookup (offer.discountedCost.getD []) VP_ID = some d →
      price_vp offer = some d) ∧
    (dictLookup (offer.discountedCost.getD []) VP_ID = none →
      price_vp offer = dictLookup (offer.cost.getD []) VP_ID) ∧
    (∀ su, truthyS (findSkinUuid offer) = some su →
      resolve_items [offer] idx =
        [⟨(match dget idx (pyLower su) with | some i => i.name | none => su),
          price_vp offer,
          (match dget idx (pyLower su) with | some i => i.icon | none => none)⟩]) := by
  refine ⟨?_, ?_, ?_⟩
  · intro d h
    simp [price_vp, h]
  · intro h
    simp only [price_vp, h]
    cases dictLookup (offer.cost.getD []) VP_ID <;> rfl
  · intro su h
    simp [resolve_items, h]

/-- C7 witness: an offer whose cost maps hold no VP key resolves to an
unknown price and is still included with its raw name and no icon. -/
theorem claim_C7_witness :
    price_vp ⟨some [("not-vp-currency", 5)], some [], [⟨some ITEMTYPE_WEAPON_SKIN, some "Skin-X"⟩]⟩ = none ∧
    resolve_items [⟨some [("not-vp-currency", 5)], some [], [⟨some ITEMTYPE_WEAPON_SKIN, some "Skin-X"⟩]⟩] [] =
      [⟨"Skin-X", none, none⟩] := by
  constructor
  · exact ((claim_C7 ⟨some [("not-vp-currency", 5)], some [],
      [⟨some ITEMTYPE_WEAPON_SKIN, some "Skin-X"⟩]⟩ []).2.1 (by decide)).trans (by decide)
  · exact ((claim_C7 ⟨some [("not-vp-currency", 5)], some [],
      [⟨some ITEMTYPE_WEAPON_SKIN, some "Skin-X"⟩]⟩ []).2.2 "Skin-X" (by decide)).trans (by decide)

end PriceClaim

section SkinIndexClaim

/-- Python truthiness and its value-carrying form agree. -/
theorem truthy_isSome (o : Option String) : truthy o = (truthyS o).isSome := by
  cases o with
  | none => rfl
  | some s => by_cases h : s = "" <;> simp [truthy, truthyS, h]

/-- Dict lookup after a dict write. -/
theorem dget_dset (m : List (String × SkinInfo)) (k k' : String) (v : SkinInfo) :
    dget (dset m k v) k' = if k' = k then some v else dget m k' := by
  by_cases h : k' = k
  · subst h
    simp [dget, dset, List.find?_cons]
  · have hb : (k == k') = false := by
      simp [Ne.symm h]
    simp only [dget, dset, List.find?_cons, hb]
    rw [if_neg h]

/-- Registering a batch of keys to the same info record: a key of the batch
reads back that record, any other key is untouched. -/
theorem foldl_register {α : Type} (info : SkinInfo) (f : α → Option String) :
    ∀ (ks : List α) (idx : List (String × SkinInfo)) (k : String),
      dget (ks.foldl (fun a x =>
        match f x with
        | some u => dset a u info
        | none => a) idx) k =
        if k ∈ ks.filterMap f then some info else dget idx k := by
  intro ks
  induction ks with
  | nil => intro idx k; simp
  | cons x t ih =>
    intro idx k
    cases hf : f x with
    | none =>
      simp only [List.foldl_cons, hf]
      rw [ih]
      simp [List.filterMap_cons, hf]
    | some u =>
      simp only [List.foldl_cons, hf]
      rw [ih]
      rw [dget_dset]
      by_cases hk : k ∈ t.filterMap f <;>
        by_cases hku : k = u <;>
          simp [List.filterMap_cons, hf, hk, hku]

/-- One catalog entry maps each of its registered keys to its own info
record and leaves every other key unchanged. -/
theorem addSkin_dget (idx : List (String × SkinInfo)) (sk : Skin) (k : String) :
    dget (addSkin idx sk) k =
      if k ∈ skinKeys sk then some (skinInfoOf sk) else dget idx k := by
  cases hn : truthyS sk.displayName with
  | none => simp [addSkin, skinKeys, hn]
  | some nm =>
    cases hu : truthyS sk.uuid with
    | none => simp [addSkin, skinKeys, hn, hu]
    | some su =>
      simp only [addSkin, skinKeys, hn, hu]
      rw [foldl_register, foldl_register, dget_dset]
      by_cases h1 : k = (pyLower su) <;>
        by_cases h2 : k ∈ sk.levels.filterMap (fun lv => (truthyS lv.uuid).map pyLower) <;>
          by_cases h3 : k ∈ sk.chromas.filterMap (fun ch => (truthyS ch.uuid).map pyLower) <;>
            simp [h1, h2, h3]

/-- Catalog entries registering none of key `k` leave `k`'s binding
unchanged. -/
theorem dget_foldl_not_mem :
    ∀ (post : List Skin) (idx : List (String × SkinInfo)) (k : String),
      (∀ s' ∈ post, k ∉ skinKeys s') →
      dget (post.foldl addSkin idx) k = dget idx k := by
  intro post
  induction post with
  | nil => intro idx k _; rfl
  | cons s' t ih =>
    intro idx k h
    simp only [List.foldl_cons]
    rw [ih _ _ (fun s hs => h s (by simp [hs]))]
    rw [addSkin_dget]
    simp [h s' (by simp)]

/-- A key registered by entry `sk` and by no later entry reads back `sk`'s
info record in the built index. -/
theorem build_pick (pre post : List Skin) (sk : Skin) (k : String)
    (hk : k ∈ skinKeys sk) (hpost : ∀ s' ∈ post, k ∉ skinKeys s') :
    dget (build_skin_info_index (pre ++ sk :: post)) k = some (skinInfoOf sk) := by
  unfold build_skin_info_index
  rw [List.foldl_append]
  simp only [List.foldl_cons]
  rw [dget_foldl_not_mem post _ k hpost, addSkin_dget]
  simp [hk]

/-- C8: in the built index, the parent uuid, every truthy level uuid and
every truthy chroma uuid of a registered catalog entry (whose keys no later
entry reuses) all map to the identical `{name, icon}` record; lookups are
case-insensitive via lowercasing (any spelling with the same lowercase form
finds the entry); and the record's icon falls back to the first level's icon
when the entry's own icon is falsy. -/
theorem claim_C8 (pre post : List Skin) (sk : Skin) (nm su : String)
    (hnm : truthyS sk.displayName = some nm) (hsu : truthyS sk.uuid = some su)
    (hdisj : ∀ s' ∈ post, ∀ k ∈ skinKeys sk, k ∉ skinKeys s') :
    (∀ w : String, (pyLower w) = (pyLower su) →
      dget (build_skin_info_index (pre ++ sk :: post)) (pyLower w) =
        some (skinInfoOf sk)) ∧
    (∀ lv ∈ sk.levels, ∀ u, truthyS lv.uuid = some u →
      dget (build_skin_info_index (pre ++ sk :: post)) (pyLower u) =
        some (skinInfoOf sk)) ∧
    (∀ ch ∈ sk.chromas, ∀ u, truthyS ch.uuid = some u →
      dget (build_skin_info_index (pre ++ sk :: post)) (pyLower u) =
        some (skinInfoOf sk)) ∧
    (truthy sk.displayIcon = false → ∀ lv0 rest, sk.levels = lv0 :: rest →
      (skinInfoOf sk).icon = lv0.displayIcon) := by
  have hparent : (pyLower su) ∈ skinKeys sk := by
    simp [skinKeys, hnm, hsu]
  refine ⟨?_, ?_, ?_, ?_⟩
  · intro w hw
    rw [hw]
    exact build_pick pre post sk _ hparent (fun s' hs' => hdisj s' hs' _ hparent)
  · intro lv hlv u hu
    have hk : (pyLower u) ∈ skinKeys sk := by
      simp only [skinKeys, hnm, hsu, List.mem_cons, List.mem_append,
        List.mem_filterMap]
      exact Or.inr (Or.inl ⟨lv, hlv, by rw [hu]; rfl⟩)
    exact build_pick pre post sk _ hk (fun s' hs' => hdisj s' hs' _ hk)
  · intro ch hch u hu
    have hk : (pyLower u) ∈ skinKeys sk := by
      simp only [skinKeys, hnm, hsu, List.mem_cons, List.mem_append,
        List.mem_filterMap]
      exact Or.inr (Or.inr ⟨ch, hch, by rw [hu]; rfl⟩)
    exact build_pick pre post sk _ hk (fun s' hs' => hdisj s' hs' _ hk)
  · intro hic lv0 rest hlv
    have hnone : truthyS sk.displayIcon = none := by
      rw [truthy_isSome] at hic
      cases h : truthyS sk.displayIcon with
      | none => rfl
      | some v => rw [h] at hic; simp at hic
    simp [skinInfoOf, skinIcon, hnone, hlv]

/-- C8 witness: in a concrete two-entry catalog, the parent uuid (in mixed
case), the level uuid and the chroma uuid of the first entry all resolve to
the same record, with the icon taken from the first level. -/
theorem claim_C8_witness :
    dget (build_skin_info_index
        [⟨some "AAA-1", some "Prime", none, [⟨some "BBB-2", some "icon-b"⟩], [⟨some "CCC-3"⟩]⟩,
         ⟨some "DDD-4", some "Reaver", some "icon-d", [], []⟩])
      (pyLower "AaA-1") = some ⟨"Prime", some "icon-b"⟩ ∧
    dget (build_skin_info_index
        [⟨some "AAA-1", some "Prime", none, [⟨some "BBB-2", some "icon-b"⟩], [⟨some "CCC-3"⟩]⟩,
         ⟨some "DDD-4", some "Reaver", some "icon-d", [], []⟩])
      (pyLower "BBB-2") = some ⟨"Prime", some "icon-b"⟩ ∧
    dget (build_skin_info_index
        [⟨some "AAA-1", some "Prime", none, [⟨some "BBB-2", some "icon-b"⟩], [⟨some "CCC-3"⟩]⟩,
         ⟨some "DDD-4", some "Reaver", some "icon-d", [], []⟩])
      (pyLower "CCC-3") = some ⟨"Prime", some "icon-b"⟩ := by
  have h := claim_C8 []
    [⟨some "DDD-4", some "Reaver", some "icon-d", [], []⟩]
    ⟨some "AAA-1", some "Prime", none, [⟨some "BBB-2", some "icon-b"⟩], [⟨some "CCC-3"⟩]⟩
    "Prime" "AAA-1" (by decide) (by decide) (by decide)
  refine ⟨(h.1 "AaA-1" (by decide)).trans (by decide),
    (h.2.1 ⟨some "BBB-2", some "icon-b"⟩ (by decide) "BBB-2" (by decide)).trans (by decide),
    (h.2.2.1 ⟨some "CCC-3"⟩ (by decide) "CCC-3" (by decide)).trans (by decide)⟩

end SkinIndexClaim

section MaskingClaim

/-- A substring is never longer than the string containing it. -/
theorem containsRun_length :
    ∀ (hay needle : List Char), containsRun hay needle = true →
      needle.length ≤ hay.length := by
  intro hay
  induction hay with
  | nil =>
    intro needle h
    simp only [containsRun, List.isEmpty_iff] at h
    simp [h]
  | cons c t ih =>
    intro needle h
    simp only [containsRun, Bool.or_eq_true] at h
    rcases h with h | h
    · have hpl : ∀ (a b : List Char), a.isPrefixOf b = true → a.length ≤ b.length := by
        intro a
        induction a with
        | nil => intro b _; simp
        | cons x xs ih =>
          intro b hab
          cases b with
          | nil => simp [List.isPrefixOf] at hab
          | cons y ys =>
            simp only [List.isPrefixOf, Bool.and_eq_true] at hab
            have := ih ys hab.2
            simp only [List.length_cons]
            omega
      simpa using hpl needle (c :: t) h
    · have := ih needle h
      simp only [List.length_cons]
      omega

/-- The masked form of a value longer than 8 characters always has exactly
9 characters (first four, the ellipsis, last four). -/
theorem mask_long (v : String) (h : 8 < v.data.length) :
    (ReauthDiag.mask v).data.length = 9 := by
  have hne : (v == "") = false := by
    apply beq_eq_false_iff_ne.mpr
    intro he
    subst he
    simp at h
  unfold ReauthDiag.mask
  simp only [hne, Bool.false_eq_true, if_false, if_pos h]
  rw [String.data_append, String.data_append]
  simp only [ReauthDiag.pySliceTo, ReauthDiag.pySliceLast, List.length_append,
    List.length_take, List.length_drop, List.length_singleton]
  omega

set_option maxRecDepth 100000 in
/-- C9 counterexample: `_mask` (reauth_diag.py:53-55) returns values of 8 or
fewer characters unmasked, so the rendered report for an 8-character ssid
contains the full original credential value — refuting "for no credential
value does the full original value appear anywhere in the report". -/
theorem claim_C9_counterexample :
    strContains
      (ReauthDiag.collect_reauth_diag "u1" "203.0.113.9" false
        ⟨"abcdefgh", "", "", "", "", "", ""⟩ none
        (fun _ _ => ⟨403, 403, false⟩))
      "abcdefgh" = true := by
  decide

set_option maxRecDepth 100000 in
/-- C9 (amended): credential values longer than 8 characters are masked to
first-4 + `…` + last-4 — for the 16-character ssid the rendered report
contains `abcd…5678` and not the original value — while values of 8 or
fewer characters are rendered verbatim; in general a value longer than 9
characters never occurs inside its own 9-character mask. -/
theorem claim_C9 :
    strContains
      (ReauthDiag.collect_reauth_diag "u1" "203.0.113.9" false
        ⟨"abcdefgh12345678", "", "", "", "", "", ""⟩ none
        (fun _ _ => ⟨403, 403, false⟩))
      "abcd…5678" = true ∧
    strContains
      (ReauthDiag.collect_reauth_diag "u1" "203.0.113.9" false
        ⟨"abcdefgh12345678", "", "", "", "", "", ""⟩ none
        (fun _ _ => ⟨403, 403, false⟩))
      "abcdefgh12345678" = false ∧
    (∀ v : String, 9 < v.data.length →
      strContains (ReauthDiag.mask v) v = false) := by
  refine ⟨by decide, by decide, ?_⟩
  intro v hv
  by_contra hc
  rw [Bool.not_eq_false] at hc
  have hlen := containsRun_length (ReauthDiag.mask v).data v.data hc
  have hm : (ReauthDiag.mask v).data.length = 9 := mask_long v (by omega)
  omega

/-- C9 witness: a concrete 11-character credential value never appears
inside its own mask, instantiating the general arm of the theorem. -/
theorem claim_C9_witness :
    strContains (ReauthDiag.mask "credential0") "credential0" = false :=
  claim_C9.2.2 "credential0" (by decide)

end MaskingClaim
